import Mathlib

/-!
# Verification of the relation-metadata resolution layer

A shallow embedding of `src/metadata/RelationMetadata.ts`: the
`RelationMetadata` class, its construction from `RelationMetadataArgs`,
and its derived accessors (`name`, `referencedColumnName`, `isLazy`,
`isOwning`, `inverseSideProperty`, `hasInverseSide`, `inverseRelation`).

JavaScript semantics mirrored here:
- an unset optional field is `Option.none` (JS `undefined`);
- truthiness of a string is non-emptiness, of a function is `true`,
  of `undefined` is `false`, of a boolean is the boolean itself;
- member access on `undefined` throws a `TypeError`; accessors whose
  source can throw are embedded in `Except JsError`;
- `throw new Error(...)` in `inverseRelation` is a `lookupError`.

`EntityMetadata`, `JoinColumnMetadata`, `JoinTableMetadata` and the
column/naming-strategy collaborators are not under `src/`; they are
modelled from the spec where noted.
-/

namespace TypeOrm

/-- Relation kinds, from `RelationTypes` (closed variant per the spec). -/
inductive RelationType where
  | oneToOne
  | oneToMany
  | manyToOne
  | manyToMany
deriving DecidableEq, Repr

/-- Modelled from the spec: a column descriptor; the core consumes only a
column's physical `name` and its declared `propertyName`
(`primaryColumn.propertyName`, `referencedColumn.name`). -/
structure ColumnMetadata where
  name : String
  propertyName : String
deriving DecidableEq, Repr

/-- Modelled from the spec: Join Column Descriptor — a column name
(possibly customized, `""` when none was given, matching JS truthiness
of `joinColumn.name`) and a reference to the column on the related
entity it points to. -/
structure JoinColumnMetadata where
  name : String
  referencedColumn : Option ColumnMetadata
deriving DecidableEq, Repr

/-- Modelled from the spec: Join Table Descriptor — consumed by the core
only as a presence/absence signal for ownership, so its junction-table
shape is a single opaque name field. -/
structure JoinTableMetadata where
  tableName : String
deriving DecidableEq, Repr

/-- Modelled from the spec: the map handed to an inverse-side resolver,
"mapping each property's access path to its own name". -/
def PropertiesMap : Type := List (String × String)

/-- `PropertyTypeInFunction<T> = string | ((t: T) => string | any)`:
the inverse-side specifier, either a literal property name or a resolver
over the related entity's properties map. -/
inductive PropertyTypeInFunction where
  | str (s : String)
  | func (f : PropertiesMap → String)

/-- JS truthiness of a `PropertyTypeInFunction` value: a string is truthy
iff non-empty, a function is always truthy. -/
def ptifTruthy : PropertyTypeInFunction → Bool
  | .str s => s ≠ ""
  | .func _ => true

/-- JS truthiness of an optional `PropertyTypeInFunction` (`undefined`
is falsy). -/
def optPtifTruthy : Option PropertyTypeInFunction → Bool
  | none => false
  | some s => ptifTruthy s

/-- JS truthiness of an optional boolean option (`undefined` and `false`
are falsy). -/
def optBoolTruthy : Option Bool → Bool
  | none => false
  | some b => b

/-- JS truthiness of an optional string option (`undefined` and `""` are
falsy). -/
def optStrTruthy : Option String → Bool
  | none => false
  | some s => s ≠ ""

/-- JS `String.prototype.toLowerCase()`, character by character (the
names compared in this code are ASCII identifiers). -/
def toLowerCase (s : String) : String :=
  String.mk (s.data.map Char.toLower)

/-- The reflected property type (`propertyType`): the core reads only its
constructor `name` (for lazy detection). -/
structure PropertyTypeRef where
  name : String
deriving DecidableEq, Repr

/-- `RelationOptions`: the options bundle of a relation declaration, all
keys optional (`undefined` = `none`). -/
structure RelationOptions where
  cascadeInsert : Option Bool := none
  cascadeUpdate : Option Bool := none
  cascadeRemove : Option Bool := none
  cascadeAll : Option Bool := none
  nullable : Option Bool := none
  oldColumnName : Option String := none
  onDelete : Option String := none

/-- `RelationMetadataArgs`: the relation declaration record consumed by
the `RelationMetadata` constructor. -/
structure RelationMetadataArgs where
  propertyName : String
  relationType : RelationType
  propertyType : Option PropertyTypeRef := none
  inverseSideProperty : Option PropertyTypeInFunction := none
  isTreeParent : Bool := false
  isTreeChildren : Bool := false
  options : RelationOptions := {}

/-- The `RelationMetadata` class state. The owning / related entity
references attached during the wiring pass are passed explicitly to the
accessors below (`em` for `this.entityMetadata`, `iem` for
`this.inverseEntityMetadata`); `joinColumn` / `joinTable` are fields,
`none` until wiring attaches a descriptor. -/
structure RelationMetadata where
  propertyName : String
  relationType : RelationType
  propertyType : Option PropertyTypeRef
  inverseSidePropertyField : Option PropertyTypeInFunction
  isCascadeInsert : Bool
  isCascadeUpdate : Bool
  isCascadeRemove : Bool
  isNullable : Bool
  oldColumnName : Option String
  onDelete : Option String
  isTreeParent : Bool
  isTreeChildren : Bool
  joinColumn : Option JoinColumnMetadata
  joinTable : Option JoinTableMetadata

namespace RelationMetadata

/-- The constructor body of `RelationMetadata(args)`: each `if (x) this.y = ...`
guard is a JS truthiness test; fields not assigned keep their
initializers (`isNullable = true`, tree flags `false`, others
`undefined`). `joinColumn` / `joinTable` are attached later by wiring. -/
def construct (args : RelationMetadataArgs) : RelationMetadata where
  propertyName := args.propertyName
  relationType := args.relationType
  inverseSidePropertyField :=
    if optPtifTruthy args.inverseSideProperty then args.inverseSideProperty else none
  propertyType := args.propertyType
  isCascadeInsert :=
    optBoolTruthy args.options.cascadeInsert || optBoolTruthy args.options.cascadeAll
  isCascadeUpdate :=
    optBoolTruthy args.options.cascadeUpdate || optBoolTruthy args.options.cascadeAll
  isCascadeRemove :=
    optBoolTruthy args.options.cascadeRemove || optBoolTruthy args.options.cascadeAll
  oldColumnName :=
    if optStrTruthy args.options.oldColumnName then args.options.oldColumnName else none
  isNullable :=
    if optBoolTruthy args.options.nullable then args.options.nullable.getD true else true
  onDelete :=
    if optStrTruthy args.options.onDelete then args.options.onDelete else none
  isTreeParent := args.isTreeParent
  isTreeChildren := args.isTreeChildren
  joinColumn := none
  joinTable := none

/-- `get isOneToOne()`. -/
def isOneToOne (rel : RelationMetadata) : Bool :=
  rel.relationType = RelationType.oneToOne

/-- `get isOneToMany()`. -/
def isOneToMany (rel : RelationMetadata) : Bool :=
  rel.relationType = RelationType.oneToMany

/-- `get isManyToOne()`. -/
def isManyToOne (rel : RelationMetadata) : Bool :=
  rel.relationType = RelationType.manyToOne

/-- `get isManyToMany()`. -/
def isManyToMany (rel : RelationMetadata) : Bool :=
  rel.relationType = RelationType.manyToMany

/-- `get isOwning()`: `this.isManyToOne || (this.isManyToMany && this.joinTable)
|| (this.isOneToOne && this.joinColumn)` — descriptor truthiness is presence. -/
def isOwning (rel : RelationMetadata) : Bool :=
  rel.isManyToOne || (rel.isManyToMany && rel.joinTable.isSome)
    || (rel.isOneToOne && rel.joinColumn.isSome)

/-- `get isLazy()`: `this.propertyType && this.propertyType.name &&
this.propertyType.name.toLowerCase() === "promise"` (falsy short-circuit
results collapse to `false`). -/
def isLazy (rel : RelationMetadata) : Bool :=
  match rel.propertyType with
  | none => false
  | some pt => pt.name ≠ "" && toLowerCase pt.name = "promise"

end RelationMetadata

/-- Modelled from the spec: the naming-strategy collaborator — pure
functions mapping a property name, or an explicitly customized name, to
a physical column name. -/
structure NamingStrategy where
  relationName : String → String
  relationNameCustomized : String → String

/-- Modelled from the spec: the Entity Metadata collaborator — the
entity's name, its naming strategy, the set of all its relations, its
primary-key column, and the properties map it synthesizes for
inverse-side resolvers. -/
structure EntityMetadata where
  name : String
  namingStrategy : NamingStrategy
  relations : List RelationMetadata
  primaryColumn : ColumnMetadata
  propertiesMap : PropertiesMap

namespace EntityMetadata

/-- Modelled from the spec: `hasRelationWithPropertyName(name) -> bool`. -/
def hasRelationWithPropertyName (em : EntityMetadata) (propertyName : String) : Bool :=
  em.relations.any (fun r => r.propertyName = propertyName)

/-- Modelled from the spec: `findRelationWithPropertyName(name) ->
RelationMetadata | absent`. -/
def findRelationWithPropertyName (em : EntityMetadata) (propertyName : String) :
    Option RelationMetadata :=
  em.relations.find? (fun r => r.propertyName = propertyName)

/-- Modelled from the spec: the designated tree-children relation of the
entity ("at most one"; absent when no relation carries the flag). -/
def treeChildrenRelation (em : EntityMetadata) : Option RelationMetadata :=
  em.relations.find? (fun r => r.isTreeChildren)

/-- Modelled from the spec: the designated tree-parent relation of the
entity ("at most one"; absent when no relation carries the flag). -/
def treeParentRelation (em : EntityMetadata) : Option RelationMetadata :=
  em.relations.find? (fun r => r.isTreeParent)

/-- Modelled from the spec: `createPropertiesMap() -> mapping from
property access path to property name`; its construction is external,
so the map is a field of the collaborator. -/
def createPropertiesMap (em : EntityMetadata) : PropertiesMap :=
  em.propertiesMap

end EntityMetadata

/-- Failures observable from the accessors: the `Error` thrown by
`inverseRelation` (a lookup error carrying the owning entity's name and
the computed inverse property name, as interpolated into its message),
and the JS `TypeError` raised by member access on `undefined`. -/
inductive JsError where
  | lookupError (entityName : String) (inversePropertyName : String)
  | typeError (msg : String)
deriving DecidableEq, Repr

namespace RelationMetadata

/-- `get name()`: `em` is the wired `this.entityMetadata`. -/
def name (em : EntityMetadata) (rel : RelationMetadata) : String :=
  match rel.joinColumn with
  | some jc =>
    if jc.name ≠ "" then em.namingStrategy.relationNameCustomized jc.name
    else em.namingStrategy.relationName rel.propertyName
  | none => em.namingStrategy.relationName rel.propertyName

/-- `get referencedColumnName()`: `iem` is the wired
`this.inverseEntityMetadata`. -/
def referencedColumnName (iem : EntityMetadata) (rel : RelationMetadata) : String :=
  match rel.joinColumn with
  | some jc =>
    match jc.referencedColumn with
    | some rc =>
      if rc.name ≠ "" then rc.name else iem.primaryColumn.propertyName
    | none => iem.primaryColumn.propertyName
  | none => iem.primaryColumn.propertyName

/-- `computeInverseSide(inverseSide)`: a resolver is invoked with the
related entity's properties map, a literal name is returned directly. -/
def computeInverseSide (iem : EntityMetadata) (inverseSide : PropertyTypeInFunction) :
    String :=
  match inverseSide with
  | .func f => f iem.createPropertiesMap
  | .str s => s

/-- The `else if (this.isTreeParent) ... else if (this.isTreeChildren) ...`
chain of `get inverseSideProperty()`, reached when
`this._inverseSideProperty` is falsy. The source dereferences
`this.entityMetadata.treeChildrenRelation.propertyName`
(resp. `treeParentRelation`) without a guard: when the designated sibling
relation is absent, the member access throws a `TypeError`. -/
def treeFallback (em : EntityMetadata) (rel : RelationMetadata) : Except JsError String :=
  if rel.isTreeParent then
    match em.treeChildrenRelation with
    | some r => Except.ok r.propertyName
    | none => Except.error (JsError.typeError
        "Cannot read property propertyName of undefined")
  else if rel.isTreeChildren then
    match em.treeParentRelation with
    | some r => Except.ok r.propertyName
    | none => Except.error (JsError.typeError
        "Cannot read property propertyName of undefined")
  else Except.ok ""

/-- `get inverseSideProperty()`: `em` is the wired `this.entityMetadata`,
`iem` the wired `this.inverseEntityMetadata`. -/
def inverseSideProperty (em iem : EntityMetadata) (rel : RelationMetadata) :
    Except JsError String :=
  match rel.inverseSidePropertyField with
  | some s =>
    if ptifTruthy s then Except.ok (computeInverseSide iem s)
    else treeFallback em rel
  | none => treeFallback em rel

/-- `get hasInverseSide()` with the related entity wired
(`this.inverseEntityMetadata` present, so its truthiness guard passes):
`this.inverseEntityMetadata.hasRelationWithPropertyName(this.inverseSideProperty)`. -/
def hasInverseSide (em iem : EntityMetadata) (rel : RelationMetadata) :
    Except JsError Bool :=
  (inverseSideProperty em iem rel).map iem.hasRelationWithPropertyName

/-- `get inverseRelation()`: looks the computed inverse property up on the
related entity and throws when no relation matches; the error message
interpolates `this.entityMetadata.name` and `this.inverseSideProperty`. -/
def inverseRelation (em iem : EntityMetadata) (rel : RelationMetadata) :
    Except JsError RelationMetadata := do
  let p ← inverseSideProperty em iem rel
  match iem.findRelationWithPropertyName p with
  | none => Except.error (JsError.lookupError em.name p)
  | some r => Except.ok r

end RelationMetadata

/-- The wiring pass, restricted to what the accessors consume from this
side: attach the (optional) join-column and join-table descriptors to a
constructed relation; the entity references are the explicit `em` /
`iem` arguments of the accessors. -/
def wire (rel : RelationMetadata) (jc : Option JoinColumnMetadata)
    (jt : Option JoinTableMetadata) : RelationMetadata :=
  { rel with joinColumn := jc, joinTable := jt }

/-- A concrete naming strategy for the concrete instances below: the
default transform appends an `Id` suffix, the customized transform uses
the explicit name as given. -/
def plainNaming : NamingStrategy where
  relationName := fun s => s ++ "Id"
  relationNameCustomized := fun s => s

/-- A concrete related entity with no relations of its own, used by the
concrete instances below. -/
def emUser : EntityMetadata where
  name := "User"
  namingStrategy := plainNaming
  relations := []
  primaryColumn := { name := "id", propertyName := "id" }
  propertiesMap := [("user.orders", "orders")]

/-- The ownership rule table of the spec (§4.5), stated in the spec's own
terms, for comparison with the source's `isOwning`. -/
def owningRuleSpec : RelationType → Bool → Bool → Bool
  | RelationType.manyToOne, _, _ => true
  | RelationType.oneToMany, _, _ => false
  | RelationType.manyToMany, hasJoinTable, _ => hasJoinTable
  | RelationType.oneToOne, _, hasJoinColumn => hasJoinColumn

/-- C1: for every wired `RelationMetadata`, `isOwning` holds exactly
according to the relation kind: `ManyToOne` is always owning, `OneToMany`
never, `ManyToMany` iff a join-table descriptor is attached, `OneToOne`
iff a join-column descriptor is attached. -/
theorem C1_isOwning_by_kind (rel : RelationMetadata) :
    rel.isOwning =
      owningRuleSpec rel.relationType rel.joinTable.isSome rel.joinColumn.isSome := by
  cases h : rel.relationType <;>
    simp [RelationMetadata.isOwning, RelationMetadata.isManyToOne,
      RelationMetadata.isManyToMany, RelationMetadata.isOneToOne,
      RelationMetadata.isOneToMany, owningRuleSpec, h]

/-- C4: a declaration with the blanket `cascadeAll = true` yields
`isCascadeInsert = isCascadeUpdate = isCascadeRemove = true` regardless
of the individual flags, and each individual flag is true whenever it
was explicitly requested on its own. -/
theorem C4_cascade_flags (args : RelationMetadataArgs) :
    (args.options.cascadeAll = some true →
      (RelationMetadata.construct args).isCascadeInsert = true ∧
      (RelationMetadata.construct args).isCascadeUpdate = true ∧
      (RelationMetadata.construct args).isCascadeRemove = true) ∧
    (args.options.cascadeInsert = some true →
      (RelationMetadata.construct args).isCascadeInsert = true) ∧
    (args.options.cascadeUpdate = some true →
      (RelationMetadata.construct args).isCascadeUpdate = true) ∧
    (args.options.cascadeRemove = some true →
      (RelationMetadata.construct args).isCascadeRemove = true) := by
  refine ⟨fun h => ?_, fun h => ?_, fun h => ?_, fun h => ?_⟩ <;>
    simp [RelationMetadata.construct, optBoolTruthy, h]

/-- C4 witness: a concrete declaration with `cascadeAll = true` and
`cascadeInsert` explicitly `false` still gets all three cascade flags. -/
theorem C4_cascade_flags_witness :
    (RelationMetadata.construct
      { propertyName := "photos", relationType := RelationType.oneToMany,
        options := { cascadeAll := some true,
                     cascadeInsert := some false } }).isCascadeInsert = true ∧
    (RelationMetadata.construct
      { propertyName := "photos", relationType := RelationType.oneToMany,
        options := { cascadeAll := some true,
                     cascadeInsert := some false } }).isCascadeUpdate = true ∧
    (RelationMetadata.construct
      { propertyName := "photos", relationType := RelationType.oneToMany,
        options := { cascadeAll := some true,
                     cascadeInsert := some false } }).isCascadeRemove = true :=
  (C4_cascade_flags
    { propertyName := "photos", relationType := RelationType.oneToMany,
      options := { cascadeAll := some true, cascadeInsert := some false } }).1 rfl

/-- C5: the constructor guards the `nullable` assignment with a JS
truthiness test (`if (args.options.nullable) this.isNullable = ...`), so
an explicit `nullable = false` never takes effect: `isNullable` is `true`
for every declaration, and in particular at the failing input whose
declaration explicitly specifies `nullable = false`. -/
theorem C5_nullable_always_true :
    (∀ args : RelationMetadataArgs, (RelationMetadata.construct args).isNullable = true) ∧
    (RelationMetadata.construct
      { propertyName := "user", relationType := RelationType.manyToOne,
        options := { nullable := some false } }).isNullable = true := by
  refine ⟨fun args => ?_, rfl⟩
  cases h : args.options.nullable with
  | none => simp [RelationMetadata.construct, optBoolTruthy, h]
  | some b => cases b <;> simp [RelationMetadata.construct, optBoolTruthy, h]

/-- C9: for a relation whose property-type descriptor has a (non-empty)
name, `isLazy` is true iff that name lower-cased equals `"promise"`; any
other name gives false. -/
theorem C9_isLazy_promise (rel : RelationMetadata) (pt : PropertyTypeRef)
    (hpt : rel.propertyType = some pt) (hname : pt.name ≠ "") :
    rel.isLazy = true ↔ toLowerCase pt.name = "promise" := by
  simp [RelationMetadata.isLazy, hpt, hname]

/-- C9 witness: a concrete relation typed `Promise` (mixed case) is lazy. -/
theorem C9_isLazy_promise_witness :
    (RelationMetadata.construct
      { propertyName := "author", relationType := RelationType.manyToOne,
        propertyType := some { name := "Promise" } }).isLazy = true :=
  (C9_isLazy_promise
    (RelationMetadata.construct
      { propertyName := "author", relationType := RelationType.manyToOne,
        propertyType := some { name := "Promise" } })
    { name := "Promise" } rfl (by decide)).mpr (by decide)

/-- C10: a declaration whose inverse-side specifier is the literal empty
string behaves exactly as if no specifier was declared: the specifier is
not stored (the constructed field is `none`), the constructed metadata
is equal to the one constructed without a specifier, and
`inverseSideProperty` falls through to the tree-flag chain. -/
theorem C10_empty_literal_specifier (args : RelationMetadataArgs)
    (h : args.inverseSideProperty = some (PropertyTypeInFunction.str "")) :
    (RelationMetadata.construct args).inverseSidePropertyField = none ∧
    RelationMetadata.construct args =
      RelationMetadata.construct { args with inverseSideProperty := none } ∧
    (∀ em iem : EntityMetadata,
      RelationMetadata.inverseSideProperty em iem (RelationMetadata.construct args) =
        RelationMetadata.treeFallback em (RelationMetadata.construct args)) := by
  refine ⟨?_, ?_, fun em iem => ?_⟩ <;>
    simp [RelationMetadata.construct, RelationMetadata.inverseSideProperty,
      optPtifTruthy, ptifTruthy, h]

/-- C2: `inverseSideProperty` resolves in declaration order: a declared
resolver specifier is invoked with the related entity's properties map, a
declared (non-empty) literal name is returned directly regardless of tree
flags; with no truthy specifier, a set `isTreeParent` returns the
designated tree-children relation's property name, a set `isTreeChildren`
(with `isTreeParent` unset) returns the designated tree-parent relation's
property name, and otherwise the empty string is returned. -/
theorem C2_inverseSideProperty_resolution (em iem : EntityMetadata)
    (args : RelationMetadataArgs) (jc : Option JoinColumnMetadata)
    (jt : Option JoinTableMetadata) :
    (∀ f, args.inverseSideProperty = some (PropertyTypeInFunction.func f) →
      RelationMetadata.inverseSideProperty em iem
          (wire (RelationMetadata.construct args) jc jt) =
        Except.ok (f iem.createPropertiesMap)) ∧
    (∀ s, args.inverseSideProperty = some (PropertyTypeInFunction.str s) → s ≠ "" →
      RelationMetadata.inverseSideProperty em iem
          (wire (RelationMetadata.construct args) jc jt) = Except.ok s) ∧
    (optPtifTruthy args.inverseSideProperty = false → args.isTreeParent = true →
      ∀ r, em.treeChildrenRelation = some r →
        RelationMetadata.inverseSideProperty em iem
            (wire (RelationMetadata.construct args) jc jt) =
          Except.ok r.propertyName) ∧
    (optPtifTruthy args.inverseSideProperty = false → args.isTreeParent = false →
      args.isTreeChildren = true →
      ∀ r, em.treeParentRelation = some r →
        RelationMetadata.inverseSideProperty em iem
            (wire (RelationMetadata.construct args) jc jt) =
          Except.ok r.propertyName) ∧
    (optPtifTruthy args.inverseSideProperty = false → args.isTreeParent = false →
      args.isTreeChildren = false →
      RelationMetadata.inverseSideProperty em iem
          (wire (RelationMetadata.construct args) jc jt) = Except.ok "") := by
  refine ⟨fun f h => ?_, fun s h hs => ?_, fun h0 h1 r hr => ?_,
    fun h0 h1 h2 r hr => ?_, fun h0 h1 h2 => ?_⟩
  · simp [wire, RelationMetadata.construct, RelationMetadata.inverseSideProperty,
      RelationMetadata.computeInverseSide, optPtifTruthy, ptifTruthy, h]
  · simp [wire, RelationMetadata.construct, RelationMetadata.inverseSideProperty,
      RelationMetadata.computeInverseSide, optPtifTruthy, ptifTruthy, h, hs]
  · simp [wire, RelationMetadata.construct, RelationMetadata.inverseSideProperty,
      RelationMetadata.treeFallback, h0, h1, hr]
  · simp [wire, RelationMetadata.construct, RelationMetadata.inverseSideProperty,
      RelationMetadata.treeFallback, h0, h1, h2, hr]
  · simp [wire, RelationMetadata.construct, RelationMetadata.inverseSideProperty,
      RelationMetadata.treeFallback, h0, h1, h2]

/-- C2 witness: a concrete declaration with the literal inverse-side name
`"orders"` resolves to `"orders"` exactly, even with a tree flag set. -/
theorem C2_inverseSideProperty_resolution_witness :
    RelationMetadata.inverseSideProperty emUser emUser
      (wire (RelationMetadata.construct
        { propertyName := "user", relationType := RelationType.manyToOne,
          inverseSideProperty := some (PropertyTypeInFunction.str "orders"),
          isTreeParent := true }) none none) = Except.ok "orders" :=
  (C2_inverseSideProperty_resolution emUser emUser
    { propertyName := "user", relationType := RelationType.manyToOne,
      inverseSideProperty := some (PropertyTypeInFunction.str "orders"),
      isTreeParent := true } none none).2.1 "orders" rfl (by decide)

/-- C3: given that `inverseSideProperty` computed `p`, `inverseRelation`
fails with the lookup error carrying the owning entity's name and `p`
iff the related entity has no relation whose property name is `p`, and
returns the found relation when one exists. -/
theorem C3_inverseRelation_lookup (em iem : EntityMetadata) (rel : RelationMetadata)
    (p : String) (hp : RelationMetadata.inverseSideProperty em iem rel = Except.ok p) :
    (RelationMetadata.inverseRelation em iem rel =
        Except.error (JsError.lookupError em.name p) ↔
      iem.findRelationWithPropertyName p = none) ∧
    (∀ r, iem.findRelationWithPropertyName p = some r →
      RelationMetadata.inverseRelation em iem rel = Except.ok r) := by
  unfold RelationMetadata.inverseRelation
  rw [hp]
  cases hf : iem.findRelationWithPropertyName p <;>
    simp [hf, bind, Except.bind]

/-- C3 witness: a concrete relation whose computed inverse property
`"owner"` does not exist on the related entity fails with the lookup
error identifying the owning entity (`"User"`) and `"owner"`. -/
theorem C3_inverseRelation_lookup_witness :
    RelationMetadata.inverseRelation emUser emUser
      (wire (RelationMetadata.construct
        { propertyName := "profile", relationType := RelationType.oneToOne,
          inverseSideProperty := some (PropertyTypeInFunction.str "owner") })
        none none) =
      Except.error (JsError.lookupError "User" "owner") :=
  (C3_inverseRelation_lookup emUser emUser
    (wire (RelationMetadata.construct
      { propertyName := "profile", relationType := RelationType.oneToOne,
        inverseSideProperty := some (PropertyTypeInFunction.str "owner") })
      none none) "owner" rfl).1.mpr rfl

/-- C7: `referencedColumnName` returns the join-column descriptor's
referenced column's name when the descriptor is present and references a
named column, and otherwise falls back to the related entity's
primary-key column's property name. -/
theorem C7_referencedColumnName_rule (iem : EntityMetadata) (rel : RelationMetadata) :
    (∀ jc rc, rel.joinColumn = some jc → jc.referencedColumn = some rc →
      rc.name ≠ "" → RelationMetadata.referencedColumnName iem rel = rc.name) ∧
    ((¬ ∃ jc rc, rel.joinColumn = some jc ∧ jc.referencedColumn = some rc ∧
        rc.name ≠ "") →
      RelationMetadata.referencedColumnName iem rel =
        iem.primaryColumn.propertyName) := by
  constructor
  · intro jc rc hjc hrc hn
    simp [RelationMetadata.referencedColumnName, hjc, hrc, hn]
  · intro h
    unfold RelationMetadata.referencedColumnName
    cases hjc : rel.joinColumn with
    | none => rfl
    | some jc =>
      cases hrc : jc.referencedColumn with
      | none => simp [hrc]
      | some rc =>
        have hn : rc.name = "" := by
          by_contra hn
          exact h ⟨jc, rc, hjc, hrc, hn⟩
        simp [hrc, hn]

/-- C7 witness: a concrete join column referencing the named column
`"uid"` makes `referencedColumnName` return `"uid"`. -/
theorem C7_referencedColumnName_rule_witness :
    RelationMetadata.referencedColumnName emUser
      (wire (RelationMetadata.construct
        { propertyName := "user", relationType := RelationType.manyToOne })
        (some { name := "user_id",
                referencedColumn := some { name := "uid", propertyName := "uid" } })
        none) = "uid" :=
  (C7_referencedColumnName_rule emUser
    (wire (RelationMetadata.construct
      { propertyName := "user", relationType := RelationType.manyToOne })
      (some { name := "user_id",
              referencedColumn := some { name := "uid", propertyName := "uid" } })
      none)).1
    { name := "user_id",
      referencedColumn := some { name := "uid", propertyName := "uid" } }
    { name := "uid", propertyName := "uid" } rfl rfl (by decide)

/-- C8: the owning-side column name accessor applies the naming
strategy's customized transform to the join-column's explicit name when
one is present, and otherwise the default transform to the relation's
property name. -/
theorem C8_name_rule (em : EntityMetadata) (rel : RelationMetadata) :
    (∀ jc, rel.joinColumn = some jc → jc.name ≠ "" →
      RelationMetadata.name em rel =
        em.namingStrategy.relationNameCustomized jc.name) ∧
    ((¬ ∃ jc, rel.joinColumn = some jc ∧ jc.name ≠ "") →
      RelationMetadata.name em rel =
        em.namingStrategy.relationName rel.propertyName) := by
  constructor
  · intro jc hjc hn
    simp [RelationMetadata.name, hjc, hn]
  · intro h
    unfold RelationMetadata.name
    cases hjc : rel.joinColumn with
    | none => rfl
    | some jc =>
      have hn : jc.name = "" := by
        by_contra hn
        exact h ⟨jc, hjc, hn⟩
      simp [hn]

/-- C8 witness: a concrete join column with explicit name `"user_fk"`
makes the column-name accessor return the customized transform of
`"user_fk"` (the identity under `plainNaming`). -/
theorem C8_name_rule_witness :
    RelationMetadata.name emUser
      (wire (RelationMetadata.construct
        { propertyName := "user", relationType := RelationType.manyToOne })
        (some { name := "user_fk", referencedColumn := none }) none) = "user_fk" :=
  (C8_name_rule emUser
    (wire (RelationMetadata.construct
      { propertyName := "user", relationType := RelationType.manyToOne })
      (some { name := "user_fk", referencedColumn := none }) none)).1
    { name := "user_fk", referencedColumn := none } rfl (by decide)

/-- C10 witness: a concrete tree-children declaration whose inverse-side
specifier is the empty string stores no specifier. -/
theorem C10_empty_literal_specifier_witness :
    (RelationMetadata.construct
      { propertyName := "children", relationType := RelationType.oneToMany,
        inverseSideProperty := some (PropertyTypeInFunction.str ""),
        isTreeChildren := true }).inverseSidePropertyField = none :=
  (C10_empty_literal_specifier
    { propertyName := "children", relationType := RelationType.oneToMany,
      inverseSideProperty := some (PropertyTypeInFunction.str ""),
      isTreeChildren := true } rfl).1

/-- The tree-branch chain errors exactly when a tree flag is selected and
the entity has no designated sibling tree relation. -/
theorem treeFallback_error_iff (em : EntityMetadata) (rel : RelationMetadata) :
    (∃ e, RelationMetadata.treeFallback em rel = Except.error e) ↔
      ((rel.isTreeParent = true ∧ em.treeChildrenRelation = none) ∨
       (rel.isTreeParent = false ∧ rel.isTreeChildren = true ∧
         em.treeParentRelation = none)) := by
  unfold RelationMetadata.treeFallback
  cases htp : rel.isTreeParent with
  | true =>
    cases hc : em.treeChildrenRelation <;> simp [htp, hc]
  | false =>
    cases htc : rel.isTreeChildren with
    | true => cases hp : em.treeParentRelation <;> simp [htp, htc, hp]
    | false => simp [htp, htc]

/-- `inverseSideProperty` errors exactly when no truthy specifier is
stored and the selected tree branch lacks its designated relation. -/
theorem inverseSideProperty_error_iff (em iem : EntityMetadata)
    (rel : RelationMetadata) :
    (∃ e, RelationMetadata.inverseSideProperty em iem rel = Except.error e) ↔
      (optPtifTruthy rel.inverseSidePropertyField = false ∧
        ((rel.isTreeParent = true ∧ em.treeChildrenRelation = none) ∨
         (rel.isTreeParent = false ∧ rel.isTreeChildren = true ∧
           em.treeParentRelation = none))) := by
  unfold RelationMetadata.inverseSideProperty
  cases hf : rel.inverseSidePropertyField with
  | none =>
    simp [optPtifTruthy, treeFallback_error_iff em rel]
  | some s =>
    cases hts : ptifTruthy s with
    | true => simp [optPtifTruthy, hts]
    | false => simp [optPtifTruthy, hts, treeFallback_error_iff em rel]

/-- A `map` over `Except` is an error exactly when the underlying
computation is. -/
theorem except_map_error_iff {α β : Type} (g : α → β) (x : Except JsError α) :
    (∃ e, x.map g = Except.error e) ↔ ∃ e, x = Except.error e := by
  cases x <;> simp [Except.map]

/-- C6 (amended): `inverseRelation` is not the only accessor that can
fail: `inverseSideProperty` — and `hasInverseSide`, which evaluates it —
fails exactly when no truthy inverse-side specifier is stored, a tree
flag selects a tree branch, and the entity has no designated sibling
tree relation (the unguarded member access on the absent relation);
the remaining accessors (`name`, `referencedColumnName`, `isLazy`,
`isOwning`) are total. -/
theorem C6_failing_accessors (em iem : EntityMetadata) (rel : RelationMetadata) :
    ((∃ e, RelationMetadata.inverseSideProperty em iem rel = Except.error e) ↔
      (optPtifTruthy rel.inverseSidePropertyField = false ∧
        ((rel.isTreeParent = true ∧ em.treeChildrenRelation = none) ∨
         (rel.isTreeParent = false ∧ rel.isTreeChildren = true ∧
           em.treeParentRelation = none)))) ∧
    ((∃ e, RelationMetadata.hasInverseSide em iem rel = Except.error e) ↔
      (optPtifTruthy rel.inverseSidePropertyField = false ∧
        ((rel.isTreeParent = true ∧ em.treeChildrenRelation = none) ∨
         (rel.isTreeParent = false ∧ rel.isTreeChildren = true ∧
           em.treeParentRelation = none)))) := by
  refine ⟨inverseSideProperty_error_iff em iem rel, ?_⟩
  rw [show ∀ r, RelationMetadata.hasInverseSide em iem r =
      (RelationMetadata.inverseSideProperty em iem r).map
        iem.hasRelationWithPropertyName from fun r => rfl]
  rw [except_map_error_iff]
  exact inverseSideProperty_error_iff em iem rel

/-- A concrete entity with no tree-children relation configured, for the
C6 counterexample. -/
def emNoSibling : EntityMetadata where
  name := "Category"
  namingStrategy := plainNaming
  relations := []
  primaryColumn := { name := "id", propertyName := "id" }
  propertiesMap := []

/-- C6 counterexample: on a wired tree-parent relation whose entity has
no configured tree-children sibling relation, `inverseSideProperty` does
not degrade to a default value — it fails with a type error (the source
dereferences `propertyName` on the absent designated relation). -/
theorem C6_failing_accessors_counterexample :
    RelationMetadata.inverseSideProperty emNoSibling emNoSibling
      (wire (RelationMetadata.construct
        { propertyName := "parentCategory", relationType := RelationType.manyToOne,
          isTreeParent := true }) none none) =
      Except.error (JsError.typeError
        "Cannot read property propertyName of undefined") := rfl

end TypeOrm
